import Mathlib

/-!
Shallow embedding of `src/examples/mpr121-capacitive-stream/MPR121_Helper.h`,
the `MPR121_Helper` C++ class: a beginner-friendly wrapper around the
Adafruit MPR121 capacitive-touch driver.  The class caches two generations
of a 12-bit touch mask (`currentTouchData`, `lastTouchData`) and a 12-entry
cache of filtered (proximity) readings, and answers bit-test and
edge-detection queries against that cache.

Driver interactions are modelled as oracle inputs: `updateTouchData` takes
the `uint16_t` value that `sensor->touched()` returned, `updateFilteredData`
takes the per-channel function realised by `sensor->filteredData(i)`, and
the threshold setters return the `(touch, release)` pair that is forwarded
to `sensor->setThresholds`.  Machine integers are Nat with `% 2^w` at the
points where the C code truncates.
-/

namespace MPR121

/-- The mutable state of the `MPR121_Helper` class:
`uint16_t currentTouchData; uint16_t lastTouchData;
uint16_t filteredDataCache[12];` (the driver pointer is not part of the
pure state; driver responses are oracle inputs to the operations). -/
structure MPR121_Helper where
  currentTouchData : Nat
  lastTouchData : Nat
  filteredDataCache : Fin 12 → Nat

/-- The constructor `MPR121_Helper(Adafruit_MPR121* cap)`: zeroes
`currentTouchData` and `lastTouchData` and writes 0 into every entry of
`filteredDataCache`.  It performs no driver call, which the embedding
reflects by taking no driver oracle at all. -/
def MPR121_Helper.init : MPR121_Helper :=
  { currentTouchData := 0
    lastTouchData := 0
    filteredDataCache := fun _ => 0 }

/-- `void updateTouchData()`: `lastTouchData = currentTouchData;
currentTouchData = sensor->touched();`.  The oracle argument `touched` is
the value returned by the driver; storing into a `uint16_t` field truncates
modulo 2^16. -/
def MPR121_Helper.updateTouchData (s : MPR121_Helper) (touched : Nat) :
    MPR121_Helper :=
  { s with
    lastTouchData := s.currentTouchData
    currentTouchData := touched % 65536 }

/-- `void updateFilteredData()`: `for (i = 0; i < 12; i++)
filteredDataCache[i] = sensor->filteredData(i);`.  The loop over indices
0..11 is the fold over `List.finRange 12`; `filteredData` is the driver
oracle for `sensor->filteredData`. -/
def MPR121_Helper.updateFilteredData (s : MPR121_Helper)
    (filteredData : Nat → Nat) : MPR121_Helper :=
  { s with
    filteredDataCache :=
      (List.finRange 12).foldl
        (fun cache i => Function.update cache i (filteredData i.val % 65536))
        s.filteredDataCache }

/-- `bool getTouchData(uint8_t electrode)`: `if (electrode > 11) return
false; return (currentTouchData & (1 << electrode)) != 0;`. -/
def MPR121_Helper.getTouchData (s : MPR121_Helper) (electrode : Nat) : Bool :=
  if electrode > 11 then false
  else (s.currentTouchData &&& (1 <<< electrode)) != 0

/-- `bool isTouched(uint8_t electrode)`: same body as `getTouchData`. -/
def MPR121_Helper.isTouched (s : MPR121_Helper) (electrode : Nat) : Bool :=
  if electrode > 11 then false
  else (s.currentTouchData &&& (1 <<< electrode)) != 0

/-- `bool wasTouched(uint8_t electrode)`: the same bit test against
`lastTouchData`. -/
def MPR121_Helper.wasTouched (s : MPR121_Helper) (electrode : Nat) : Bool :=
  if electrode > 11 then false
  else (s.lastTouchData &&& (1 <<< electrode)) != 0

/-- `bool isNewTouch(uint8_t electrode)`:
`return isTouched(electrode) && !wasTouched(electrode);`. -/
def MPR121_Helper.isNewTouch (s : MPR121_Helper) (electrode : Nat) : Bool :=
  s.isTouched electrode && !s.wasTouched electrode

/-- `bool isNewRelease(uint8_t electrode)`:
`return !isTouched(electrode) && wasTouched(electrode);`. -/
def MPR121_Helper.isNewRelease (s : MPR121_Helper) (electrode : Nat) : Bool :=
  !s.isTouched electrode && s.wasTouched electrode

/-- `uint8_t getNumTouches()`: counts `isTouched(i)` over the loop
`for (i = 0; i < 12; i++)`. -/
def MPR121_Helper.getNumTouches (s : MPR121_Helper) : Nat :=
  (List.range 12).foldl
    (fun count i => if s.isTouched i then count + 1 else count) 0

/-- `uint16_t getFilteredData(uint8_t electrode)`: `if (electrode > 11)
return 0; return filteredDataCache[electrode];`. -/
def MPR121_Helper.getFilteredData (s : MPR121_Helper) (electrode : Nat) :
    Nat :=
  if h : electrode > 11 then 0
  else s.filteredDataCache ⟨electrode, by omega⟩

/-- `void setThresholds(uint8_t touchThreshold, uint8_t releaseThreshold)`:
forwards both values to `sensor->setThresholds`.  The embedding returns the
pair the driver receives; the `% 256` models the `uint8_t` parameter
conversion at the call boundary. -/
def setThresholds (touchThreshold releaseThreshold : Nat) : Nat × Nat :=
  (touchThreshold % 256, releaseThreshold % 256)

/-- `void setTouchThreshold(uint8_t threshold)`:
`sensor->setThresholds(threshold, 20);`. -/
def setTouchThreshold (threshold : Nat) : Nat × Nat :=
  setThresholds threshold 20

/-- `void setReleaseThreshold(uint8_t threshold)`:
`sensor->setThresholds(40, threshold);`. -/
def setReleaseThreshold (threshold : Nat) : Nat × Nat :=
  setThresholds 40 threshold

/-- Population count as the sum of binary digits: the mathematical notion
the spec's "population count of the low 12 bits" refers to. -/
def popCount (n : Nat) : Nat :=
  (Nat.digits 2 n).sum

/-! ### Basic lemmas about the bit test used by the queries -/

/-- The C bit test `(m & (1 << e)) != 0` is `Nat.testBit m e`. -/
theorem and_shift_ne_zero (m e : Nat) :
    ((m &&& (1 <<< e)) != 0) = m.testBit e := by
  rw [Nat.one_shiftLeft, Nat.and_two_pow]
  cases h : m.testBit e <;> simp [h, Nat.pos_iff_ne_zero.symm]

theorem isTouched_eq_testBit (s : MPR121_Helper) (e : Nat) (he : e ≤ 11) :
    s.isTouched e = s.currentTouchData.testBit e := by
  rw [MPR121_Helper.isTouched, if_neg (by omega), and_shift_ne_zero]

theorem wasTouched_eq_testBit (s : MPR121_Helper) (e : Nat) (he : e ≤ 11) :
    s.wasTouched e = s.lastTouchData.testBit e := by
  rw [MPR121_Helper.wasTouched, if_neg (by omega), and_shift_ne_zero]

/-! ### The write loop of `updateFilteredData` -/

/-- A fold of single-index writes evaluates, at index `j`, to the written
value when `j` occurs in the index list and to the old entry otherwise. -/
theorem foldl_update_apply {α : Type} (g : Fin 12 → α) (l : List (Fin 12)) :
    ∀ (cache : Fin 12 → α) (j : Fin 12),
      (l.foldl (fun c i => Function.update c i (g i)) cache) j =
        if j ∈ l then g j else cache j := by
  induction l with
  | nil => intro cache j; simp
  | cons a l ih =>
      intro cache j
      simp only [List.foldl_cons, ih, List.mem_cons]
      by_cases hj : j ∈ l
      · simp [hj]
      · by_cases ha : j = a
        · subst ha; simp [hj, Function.update_apply]
        · simp [hj, ha, Function.update_apply]

/-- After `updateFilteredData`, every cache entry holds the fresh driver
reading for its channel (truncated to `uint16_t`). -/
theorem updateFilteredData_cache (s : MPR121_Helper) (f : Nat → Nat)
    (j : Fin 12) :
    (s.updateFilteredData f).filteredDataCache j = f j.val % 65536 := by
  simp [MPR121_Helper.updateFilteredData, foldl_update_apply,
    List.mem_finRange]

/-! ### Population count of the low bits -/

/-- Number of set bits of `n` among positions `0..k-1`. -/
def countBits (n : Nat) : Nat → Nat
  | 0 => 0
  | k + 1 => countBits n k + (n.testBit k).toNat

theorem toNat_testBit_zero (n : Nat) : (n.testBit 0).toNat = n % 2 := by
  rw [Nat.testBit_zero]
  rcases Nat.mod_two_eq_zero_or_one n with h | h <;> simp [h]

theorem countBits_div_two (k : Nat) :
    ∀ n, countBits n (k + 1) = n % 2 + countBits (n / 2) k := by
  induction k with
  | zero =>
      intro n
      show countBits n 0 + (n.testBit 0).toNat = n % 2 + countBits (n / 2) 0
      simp only [countBits, Nat.zero_add, Nat.add_zero]
      exact toNat_testBit_zero n
  | succ k ih =>
      intro n
      show countBits n (k + 1) + (n.testBit (k + 1)).toNat =
        n % 2 + (countBits (n / 2) k + ((n / 2).testBit k).toNat)
      rw [ih n, Nat.testBit_succ, Nat.add_assoc]

theorem countBits_eq_popCount (k : Nat) :
    ∀ n, countBits n k = popCount (n % 2 ^ k) := by
  induction k with
  | zero => intro n; simp [countBits, popCount, Nat.mod_one]
  | succ k ih =>
      intro n
      have hmod2 : n % 2 ^ (k + 1) % 2 = n % 2 :=
        Nat.mod_mod_of_dvd n (dvd_pow_self 2 (Nat.succ_ne_zero k))
      have hdiv2 : n % 2 ^ (k + 1) / 2 = n / 2 % 2 ^ k := by
        rw [pow_succ' 2 k]
        exact Nat.mod_mul_right_div_self n 2 (2 ^ k)
      rcases Nat.eq_zero_or_pos (n % 2 ^ (k + 1)) with h0 | hpos
      · have h2 : n % 2 = 0 := by rw [← hmod2, h0]
        have hd : n / 2 % 2 ^ k = 0 := by rw [← hdiv2, h0]
        rw [countBits_div_two, h2, ih (n / 2), hd, h0]
        simp
      · rw [countBits_div_two, ih (n / 2)]
        simp only [popCount]
        rw [Nat.digits_def' (by decide : 1 < 2) hpos, List.sum_cons, hmod2,
          hdiv2]

/-- The counting loop of `getNumTouches`, as a fold over `List.range k`,
computes `countBits`. -/
theorem foldl_testBit_count (n : Nat) (k : Nat) :
    ∀ acc, (List.range k).foldl
        (fun c i => if n.testBit i then c + 1 else c) acc =
      acc + countBits n k := by
  induction k with
  | zero => intro acc; simp [countBits]
  | succ k ih =>
      intro acc
      rw [List.range_succ, List.foldl_append]
      simp only [List.foldl_cons, List.foldl_nil, ih]
      cases h : n.testBit k <;> simp [h, countBits, Nat.add_assoc]

/-- The loop of `getNumTouches` counts exactly the set bits among
positions 0..11 of `currentTouchData`. -/
theorem getNumTouches_eq_countBits (s : MPR121_Helper) :
    s.getNumTouches = countBits s.currentTouchData 12 := by
  rw [MPR121_Helper.getNumTouches]
  have hext : (List.range 12).foldl
      (fun c i => if s.isTouched i then c + 1 else c) 0 =
      (List.range 12).foldl
        (fun c i => if s.currentTouchData.testBit i then c + 1 else c) 0 := by
    apply List.foldl_ext
    intro acc i hi
    have hle : i ≤ 11 := by
      have := List.mem_range.mp hi
      omega
    rw [isTouched_eq_testBit s i hle]
  rw [hext, foldl_testBit_count, Nat.zero_add]

/-! ### The claims -/

/-- Claim C1: after two successive `updateTouchData` calls in which the
driver's touch-read returns mask `M1` and then mask `M2`, for every channel
`c` in 0..11, `wasTouched c` equals bit `c` of `M1` and `isTouched c`
equals bit `c` of `M2`. -/
theorem touch_two_generations (s : MPR121_Helper) (M1 M2 c : Nat)
    (hc : c ≤ 11) (h1 : M1 < 65536) (h2 : M2 < 65536) :
    ((s.updateTouchData M1).updateTouchData M2).wasTouched c = M1.testBit c ∧
    ((s.updateTouchData M1).updateTouchData M2).isTouched c = M2.testBit c := by
  constructor
  · rw [wasTouched_eq_testBit _ _ hc]
    simp [MPR121_Helper.updateTouchData, Nat.mod_eq_of_lt h1]
  · rw [isTouched_eq_testBit _ _ hc]
    simp [MPR121_Helper.updateTouchData, Nat.mod_eq_of_lt h2]

/-- Witness for claim C1 at `s = init`, `M1 = 1`, `M2 = 2`, `c = 0`. -/
theorem touch_two_generations_witness :
    ((MPR121_Helper.init.updateTouchData 1).updateTouchData 2).wasTouched 0 =
      Nat.testBit 1 0 ∧
    ((MPR121_Helper.init.updateTouchData 1).updateTouchData 2).isTouched 0 =
      Nat.testBit 2 0 :=
  touch_two_generations MPR121_Helper.init 1 2 0 (by decide) (by decide)
    (by decide)

/-- Claim C2: for every channel argument strictly greater than 11, the
queries `getTouchData`, `isTouched`, `wasTouched`, `isNewTouch`,
`isNewRelease` all return `false` and `getFilteredData` returns `0`; the
guards reject the index before any cache or mask access. -/
theorem out_of_range_safe_defaults (s : MPR121_Helper) (e : Nat)
    (he : e > 11) :
    s.getTouchData e = false ∧ s.isTouched e = false ∧
    s.wasTouched e = false ∧ s.isNewTouch e = false ∧
    s.isNewRelease e = false ∧ s.getFilteredData e = 0 := by
  have ht : s.isTouched e = false := by
    rw [MPR121_Helper.isTouched, if_pos he]
  have hw : s.wasTouched e = false := by
    rw [MPR121_Helper.wasTouched, if_pos he]
  refine ⟨?_, ht, hw, ?_, ?_, ?_⟩
  · rw [MPR121_Helper.getTouchData, if_pos he]
  · rw [MPR121_Helper.isNewTouch, ht]; rfl
  · rw [MPR121_Helper.isNewRelease, hw]; simp
  · rw [MPR121_Helper.getFilteredData, dif_pos he]

/-- Witness for claim C2 at `s = init`, `e = 12`. -/
theorem out_of_range_safe_defaults_witness :
    MPR121_Helper.init.getTouchData 12 = false ∧
    MPR121_Helper.init.isTouched 12 = false ∧
    MPR121_Helper.init.wasTouched 12 = false ∧
    MPR121_Helper.init.isNewTouch 12 = false ∧
    MPR121_Helper.init.isNewRelease 12 = false ∧
    MPR121_Helper.init.getFilteredData 12 = 0 :=
  out_of_range_safe_defaults MPR121_Helper.init 12 (by decide)

/-- Claim C3: for every channel in 0..11, `isTouched channel` is the bit
`channel` of the mask most recently returned by the driver's touch-read
during the latest `updateTouchData` call. -/
theorem isTouched_reflects_latest_mask (s : MPR121_Helper) (m c : Nat)
    (hc : c ≤ 11) (hm : m < 65536) :
    (s.updateTouchData m).isTouched c = m.testBit c := by
  rw [isTouched_eq_testBit _ _ hc]
  simp [MPR121_Helper.updateTouchData, Nat.mod_eq_of_lt hm]

/-- Witness for claim C3 at `s = init`, `m = 5`, `c = 2`. -/
theorem isTouched_reflects_latest_mask_witness :
    (MPR121_Helper.init.updateTouchData 5).isTouched 2 = Nat.testBit 5 2 :=
  isTouched_reflects_latest_mask MPR121_Helper.init 5 2 (by decide) (by decide)

/-- Claim C4: `getNumTouches` always returns the population count of the
low 12 bits of `currentTouchData`, for every state of the adapter. -/
theorem getNumTouches_eq_popCount_low12 (s : MPR121_Helper) :
    s.getNumTouches = popCount (s.currentTouchData % 2 ^ 12) := by
  rw [getNumTouches_eq_countBits, countBits_eq_popCount 12 s.currentTouchData]

/-- Claim C5: for every channel `c` and every adapter state, `isNewTouch c`
and `isNewRelease c` are never both true; `isNewTouch c` holds exactly when
`isTouched c` is true and `wasTouched c` is false, and `isNewRelease c`
holds exactly when `isTouched c` is false and `wasTouched c` is true. -/
theorem edge_queries_characterization (s : MPR121_Helper) (c : Nat) :
    (s.isNewTouch c = true ↔
      (s.isTouched c = true ∧ s.wasTouched c = false)) ∧
    (s.isNewRelease c = true ↔
      (s.isTouched c = false ∧ s.wasTouched c = true)) ∧
    ¬(s.isNewTouch c = true ∧ s.isNewRelease c = true) := by
  cases ht : s.isTouched c <;> cases hw : s.wasTouched c <;>
    simp [MPR121_Helper.isNewTouch, MPR121_Helper.isNewRelease, ht, hw]

/-- Claim C6: `setTouchThreshold level` forwards the pair `(level, 20)` to
the driver's threshold operation and `setReleaseThreshold level` forwards
`(40, level)`; in particular `setTouchThreshold 50` makes the driver
receive touch 50 and release 20. -/
theorem threshold_setters_clobber (level : Nat) (h : level < 256) :
    setTouchThreshold level = (level, 20) ∧
    setReleaseThreshold level = (40, level) ∧
    setTouchThreshold 50 = (50, 20) := by
  refine ⟨?_, ?_, by decide⟩ <;>
    simp [setTouchThreshold, setReleaseThreshold, setThresholds,
      Nat.mod_eq_of_lt h]

/-- Witness for claim C6 at `level = 50`. -/
theorem threshold_setters_clobber_witness :
    setTouchThreshold 50 = (50, 20) ∧
    setReleaseThreshold 50 = (40, 50) ∧
    setTouchThreshold 50 = (50, 20) :=
  threshold_setters_clobber 50 (by decide)

/-- Claim C7: after `updateFilteredData` runs with the driver returning
value `f i` for channel `i`, `getFilteredData c` returns exactly `f c` for
every channel `c` in 0..11: the refresh overwrites every cache entry with
the fresh per-channel read. -/
theorem filtered_refresh_exact (s : MPR121_Helper) (f : Nat → Nat) (c : Nat)
    (hc : c ≤ 11) (hf : ∀ i, i ≤ 11 → f i < 65536) :
    (s.updateFilteredData f).getFilteredData c = f c := by
  rw [MPR121_Helper.getFilteredData, dif_neg (by omega : ¬c > 11),
    updateFilteredData_cache]
  exact Nat.mod_eq_of_lt (hf c hc)

/-- Witness for claim C7: driver values `10, 20, ..., 120` for channels
0..11, so `getFilteredData 5` returns the 6th value, 60. -/
theorem filtered_refresh_exact_witness :
    (MPR121_Helper.init.updateFilteredData
      (fun i => 10 * (i + 1))).getFilteredData 5 = 60 := by
  have h := filtered_refresh_exact MPR121_Helper.init (fun i => 10 * (i + 1))
    5 (by decide) (fun i hi => by show 10 * (i + 1) < 65536; omega)
  simpa using h

/-- Claim C8: construction zero-initialises `currentTouchData`,
`lastTouchData` and all 12 `filteredDataCache` entries, so immediately
after construction every `isTouched`/`wasTouched` query returns `false`,
`getFilteredData` returns `0` and `getNumTouches` returns `0`; the
constructor consumes no driver data. -/
theorem construction_zero_state :
    MPR121_Helper.init.currentTouchData = 0 ∧
    MPR121_Helper.init.lastTouchData = 0 ∧
    (∀ j : Fin 12, MPR121_Helper.init.filteredDataCache j = 0) ∧
    (∀ e : Nat, MPR121_Helper.init.isTouched e = false) ∧
    (∀ e : Nat, MPR121_Helper.init.wasTouched e = false) ∧
    (∀ e : Nat, MPR121_Helper.init.getFilteredData e = 0) ∧
    MPR121_Helper.init.getNumTouches = 0 := by
  refine ⟨rfl, rfl, fun j => rfl, ?_, ?_, ?_, by decide⟩
  · intro e
    simp [MPR121_Helper.isTouched, MPR121_Helper.init, Nat.zero_and]
  · intro e
    simp [MPR121_Helper.wasTouched, MPR121_Helper.init, Nat.zero_and]
  · intro e
    rw [MPR121_Helper.getFilteredData]
    split <;> rfl

/-- Claim C9: the two refresh operations are independent:
`updateFilteredData` leaves `currentTouchData` and `lastTouchData`
unchanged, and `updateTouchData` leaves all 12 `filteredDataCache` entries
unchanged, for every starting state and every driver response. -/
theorem refresh_operations_independent (s : MPR121_Helper) (f : Nat → Nat)
    (m : Nat) :
    (s.updateFilteredData f).currentTouchData = s.currentTouchData ∧
    (s.updateFilteredData f).lastTouchData = s.lastTouchData ∧
    ∀ j : Fin 12,
      (s.updateTouchData m).filteredDataCache j = s.filteredDataCache j :=
  ⟨rfl, rfl, fun _ => rfl⟩

/-- Claim C10: `getTouchData` and `isTouched` return equal results for
every electrode value and every adapter state: the two bodies are
identical. -/
theorem getTouchData_eq_isTouched (s : MPR121_Helper) (e : Nat) :
    s.getTouchData e = s.isTouched e := rfl

end MPR121
